import Mathlib

/-!
# Verification of `GroundTruthStudy` and `SortingSummaryWidget`

Shallow embedding of `spikeinterface/comparison/groundtruthstudy.py`
(class `GroundTruthStudy`) and
`spikeinterface/widgets/sorting_summary.py`
(class `SortingSummaryWidget`, method `plot_sortingview`).

Filesystem state is modelled explicitly: the names of subfolders of the
study folder that exist, the case keys stored in `cases.pickle`, and which
sorter output folders are readable.  Paths are strings relative to the
study folder (the study folder itself is the empty string `""`).
Python exceptions are modelled by the `PyErr` type and `Except PyErr`.
External library calls (`load_extractor`, `run_sorter_jobs`,
`extract_waveforms`, the comparison class, the `sortingview` views) are
modelled as opaque data / effect descriptions: the code under
verification only orchestrates them.
-/

set_option autoImplicit false

deriving instance DecidableEq for Except

/-- A Python value used as a case key: a `str`, a `tuple` (of strings,
which is the only kind `key_to_str` can join), or any other Python value. -/
inductive PyKey where
  | str (s : String)
  | tup (t : List String)
  | other
  deriving DecidableEq, Repr, BEq

/-- Python exceptions raised by the embedded code. -/
inductive PyErr where
  | valueError (msg : String)
  | assertionError (msg : String)
  | indexError
  | keyError (k : String)
  | attributeError (msg : String)
  deriving DecidableEq, Repr, BEq

/-- The `levels` attribute: a single level name (string keys) or a list of
level names (tuple keys).  Mirrors the two shapes the Python code allows. -/
inductive Levels where
  | single (s : String)
  | multi (l : List String)
  deriving DecidableEq, Repr, BEq

namespace GroundTruthStudy

/-- `_key_separator` (module level constant, groundtruthstudy.py line 36). -/
def keySeparator : String := " ## "

/-- `GroundTruthStudy.key_to_str` (lines 178-184): a string key is returned
unchanged, a tuple key is joined with `_key_separator`, anything else
raises `ValueError`. -/
def key_to_str : PyKey → Except PyErr String
  | .str s => .ok s
  | .tup t => .ok (String.intercalate keySeparator t)
  | .other => .error (.valueError "Keys for cases must str or tuple")

/-- Whether a `PyKey` is a Python `str`. -/
def isStr : PyKey → Bool
  | .str _ => true
  | _ => false

/-- Whether a `PyKey` is a Python `tuple`. -/
def isTup : PyKey → Bool
  | .tup _ => true
  | _ => false

/-- `len` of a tuple key (only consulted after the all-tuples assert). -/
def tupLen : PyKey → Nat
  | .tup t => t.length
  | _ => 0

/-- Python `list(levels)`: listing a string yields its characters as
one-character strings, listing a list yields the list itself. -/
def levelsToList : Levels → List String
  | .single s => s.data.map (fun c => String.mk [c])
  | .multi l => l

/-- The key-homogeneity / levels check at the top of
`GroundTruthStudy.create` (lines 76-94).  `keys` is
`list(cases.keys())` in insertion order; `levels` is the optional
`levels` argument.  Returns the resolved `levels` value, or the Python
exception raised: `IndexError` for empty `cases`, `AssertionError` for
inhomogeneous keys or bad `levels`, `ValueError` for a first key that is
neither `str` nor `tuple`. -/
def checkCaseKeysLevels (keys : List PyKey) (levels : Option Levels) :
    Except PyErr Levels :=
  match keys with
  | [] => .error .indexError
  | key0 :: _ =>
    match key0 with
    | .str _ =>
      if keys.all isStr then
        match levels with
        | none => .ok (.single "level0")
        | some (.single s) => .ok (.single s)
        | some (.multi _) => .error (.assertionError "isinstance(levels, str)")
      else .error (.assertionError "Keys for cases are not homogeneous")
    | .tup t0 =>
      if keys.all isTup then
        if keys.all (fun k => tupLen k = t0.length) then
          match levels with
          | none =>
            .ok (.multi ((List.range t0.length).map (fun i => "level" ++ toString i)))
          | some lv =>
            let l := levelsToList lv
            if l.length = t0.length then .ok (.multi l)
            else .error (.assertionError "len(levels) == num_levels")
        else .error (.assertionError "Keys for cases are not homogeneous, tuple negth differ")
      else .error (.assertionError "Keys for cases are not homogeneous")
    | .other => .error (.valueError "Keys for cases must str or tuple")

/-- A filesystem side effect performed by `create` /
`extract_waveforms_gt`, with its path relative to the study folder. -/
inductive FsOp where
  | mkdir (path : String)
  | mkdirExistOk (path : String)
  | dumpPickle (path : String)
  | saveNumpyFolder (path : String)
  | writeText (path : String)
  | writeBytes (path : String)
  | extractWaveforms (folder : String)
  deriving DecidableEq, Repr, BEq

/-- The eight `mkdir` calls of `GroundTruthStudy.create` (lines 98-106),
in program order; `""` is the study folder itself. -/
def createDirs : List FsOp :=
  [.mkdir "", .mkdir "datasets", .mkdir "datasets/recordings",
   .mkdir "datasets/gt_sortings", .mkdir "sorters", .mkdir "sortings",
   .mkdir "sortings/run_logs", .mkdir "metrics"]

/-- The dataset-dumping loop of `create` (lines 110-119): per dataset key,
assert the key holds no path separator, then pickle the recording, pickle
the ground-truth sorting, and save it as a numpy folder.  Returns the
effects performed before any failing assert, and the error if one fired. -/
def dumpDatasets : List String → List FsOp × Option PyErr
  | [] => ([], none)
  | k :: ks =>
    if k.data.contains '/' || k.data.contains '\\' then
      ([], some (.assertionError "separator in dataset key"))
    else
      (.dumpPickle ("datasets/recordings/" ++ k ++ ".pickle") ::
       .dumpPickle ("datasets/gt_sortings/" ++ k ++ ".pickle") ::
       .saveNumpyFolder ("datasets/gt_sortings/" ++ k) :: (dumpDatasets ks).1,
       (dumpDatasets ks).2)

/-- `GroundTruthStudy.create` (lines 73-133), as the ordered list of
filesystem effects it performs together with the exception it raises, if
any.  `cases` is `list(cases.keys())`, `datasetKeys` is
`list(datasets.keys())`.  The key check (lines 76-94) runs before any
filesystem effect; on success the folders are made, the datasets dumped,
and `info.json` / `cases.pickle` written. -/
def create (cases : List PyKey) (levels : Option Levels)
    (datasetKeys : List String) : List FsOp × Option PyErr :=
  match checkCaseKeysLevels cases levels with
  | .error e => ([], some e)
  | .ok _ =>
    match (dumpDatasets datasetKeys).2 with
    | some e => (createDirs ++ (dumpDatasets datasetKeys).1, some e)
    | none =>
      (createDirs ++ (dumpDatasets datasetKeys).1 ++
        [.writeText "info.json", .writeBytes "cases.pickle"], none)

/-- The per-case loop of `extract_waveforms_gt` (lines 298-302): extract
waveforms into `waveforms/<key-string>` for each case key.  A
non-str/tuple key raises `ValueError` from `key_to_str`. -/
def extractWaveformsLoop : List PyKey → List FsOp × Option PyErr
  | [] => ([], none)
  | k :: ks =>
    match key_to_str k with
    | .error e => ([], some e)
    | .ok s =>
      (.extractWaveforms ("waveforms/" ++ s) :: (extractWaveformsLoop ks).1,
       (extractWaveformsLoop ks).2)

/-- `GroundTruthStudy.extract_waveforms_gt` (lines 290-302), assembled
from the base-folder `mkdir` and the per-case loop. -/
def extract_waveforms_gt (caseKeys : List PyKey) : List FsOp × Option PyErr :=
  (.mkdirExistOk "waveforms" :: (extractWaveformsLoop caseKeys).1,
   (extractWaveformsLoop caseKeys).2)

/-- The `run_sorter_params` dict of one case together with its `dataset`
reference (the values of `self.cases[key]`); parameter values are opaque
strings. -/
structure CaseParams where
  dataset : String
  run_sorter_params : List (String × String)
  deriving DecidableEq, Repr, BEq

/-- The study folder as seen by the methods under verification.

* `hasDatasets` — whether `<folder>/datasets` exists;
* `infoLevels` — the `levels` entry of `info.json`;
* `recordingNames` — stems of the `*.pickle` files in
  `datasets/recordings`;
* `caseParams` — the content of `cases.pickle` (ordered dict);
* `datasets` — dataset key to an opaque recording identifier
  (the loaded `(recording, gt_sorting)` pairs);
* `existingSortings` — names `s` such that `<folder>/sortings/<s>` exists;
* `readableSorters` — names `s` such that
  `read_sorter_folder(<folder>/sorters/<s>, raise_error=False)` returns a
  sorting (rather than `None`). -/
structure StudyFS where
  hasDatasets : Bool
  infoLevels : Levels
  recordingNames : List String
  caseParams : List (PyKey × CaseParams)
  datasets : List (String × String)
  existingSortings : List String
  readableSorters : List String
  deriving DecidableEq, Repr, BEq

/-- The keys of `self.cases`, in insertion order. -/
def StudyFS.casesKeys (st : StudyFS) : List PyKey :=
  st.caseParams.map Prod.fst

/-- Python `d[k]` on an ordered dict modelled as an association list. -/
def dictGet {α : Type} (d : List (PyKey × α)) (k : PyKey) : Option α :=
  (d.find? (fun p => p.1 == k)).map Prod.snd

/-- Python `d[k]` for string-keyed dicts. -/
def sdictGet {α : Type} (d : List (String × α)) (k : String) : Option α :=
  (d.find? (fun p => p.1 == k)).map Prod.snd

/-- Python `params.pop(name)` on a dict modelled as an association list
with distinct keys: return the value and the dict without that entry, or
raise `KeyError`. -/
def popParam (name : String) :
    List (String × String) → Except PyErr (String × List (String × String))
  | [] => .error (.keyError name)
  | (n, v) :: ps =>
    if n == name then .ok (v, ps)
    else
      match popParam name ps with
      | .error e => .error e
      | .ok (v0, rest) => .ok (v0, (n, v) :: rest)

/-- A job dict appended to `job_list` in `run_sorters` (lines 220-226). -/
structure Job where
  sorter_name : String
  recording : String
  output_folder : String
  params : List (String × String)
  verbose : Bool
  deriving DecidableEq, Repr, BEq

/-- What one iteration of the `run_sorters` loop does for its key. -/
inductive RunStep where
  /-- `continue` because the sortings folder exists (lines 202-203). -/
  | skipExisting (key : PyKey)
  /-- the recovery branch: `copy_sortings([key]); continue` (lines 204-210). -/
  | copyAndSkip (key : PyKey)
  /-- a job dict appended to `job_list` (lines 216-226). -/
  | job (j : Job)
  deriving DecidableEq, Repr, BEq

/-- The job-building tail of a `run_sorters` loop iteration
(lines 216-226): look up the case's params and recording, pop
`sorter_name` (`KeyError` if absent), and produce the job dict with the
global `verbose` flag. -/
def buildJob (st : StudyFS) (verbose : Bool) (k : PyKey) (ks : String) :
    Except PyErr RunStep :=
  match dictGet st.caseParams k with
  | none => .error (.keyError "cases")
  | some cp =>
    match sdictGet st.datasets cp.dataset with
    | none => .error (.keyError cp.dataset)
    | some recId =>
      match popParam "sorter_name" cp.run_sorter_params with
      | .error e => .error e
      | .ok (sorterName, params) =>
        .ok (.job { sorter_name := sorterName, recording := recId,
                    output_folder := "sorters/" ++ ks, params := params,
                    verbose := verbose })

/-- One iteration of the loop of `GroundTruthStudy.run_sorters`
(lines 194-226).  Note line 199 of the source computes
`sorter_folder_exists = sorting_folder.exists()` — from the *sortings*
folder — so the embedded `sorter_folder_exists` reads
`st.existingSortings`, exactly as the code does. -/
def run_sorters_key (st : StudyFS) (keep verbose : Bool) (k : PyKey) :
    Except PyErr RunStep :=
  match key_to_str k with
  | .error e => .error e
  | .ok ks =>
    let sorting_exists := st.existingSortings.contains ks
    let sorter_folder_exists := st.existingSortings.contains ks
    if keep && sorting_exists then
      .ok (.skipExisting k)
    else if keep && sorter_folder_exists && st.readableSorters.contains ks then
      .ok (.copyAndSkip k)
    else
      buildJob st verbose k ks

/-- All jobs appended to `job_list` by the loop, in order. -/
def stepsJobs (steps : List RunStep) : List Job :=
  steps.filterMap (fun s => match s with | .job j => some j | _ => none)

/-- Result of `run_sorters`: the per-key steps taken, and the argument of
each call to the external runner `run_sorter_jobs`. -/
structure RunSortersResult where
  steps : List RunStep
  jobCalls : List (List Job)
  deriving DecidableEq, Repr, BEq

/-- The per-key loop of `run_sorters`, in order, propagating the first
exception. -/
def run_sorters_loop (st : StudyFS) (keep verbose : Bool) :
    List PyKey → Except PyErr (List RunStep)
  | [] => .ok []
  | k :: ks =>
    match run_sorters_key st keep verbose k with
    | .error e => .error e
    | .ok s =>
      match run_sorters_loop st keep verbose ks with
      | .error e => .error e
      | .ok rest => .ok (s :: rest)

/-- `GroundTruthStudy.run_sorters` (lines 186-228): iterate the loop over
`case_keys` (defaulting to all case keys), then hand the accumulated
`job_list` to `run_sorter_jobs` in a single call (line 228). -/
def run_sorters (st : StudyFS) (case_keys : Option (List PyKey))
    (keep verbose : Bool) : Except PyErr RunSortersResult :=
  match run_sorters_loop st keep verbose (case_keys.getD st.casesKeys) with
  | .error e => .error e
  | .ok steps => .ok { steps := steps, jobCalls := [stepsJobs steps] }

/-- Definition following the words of claim C1 (spec §4): for each case
key, with `keep=True`, "if the folder `sortings/<key-string>` under the
study folder already exists the case is skipped (no job is added to the
job list); otherwise a job description (sorter_name, the case's
recording, the sorter output folder, the remaining run_sorter_params,
and the global verbose flag) is built". -/
def run_sorters_keep_spec_key (st : StudyFS) (verbose : Bool) (k : PyKey) :
    Except PyErr RunStep :=
  match key_to_str k with
  | .error e => .error e
  | .ok ks =>
    if st.existingSortings.contains ks then
      .ok (.skipExisting k)
    else
      buildJob st verbose k ks

/-- A loaded sorting is identified by the folder it was loaded from. -/
abbrev Sorting := String

/-- A comparison object produced by the external comparison class
(`GroundTruthComparison`): its count methods and `exhaustive_gt` flag are
opaque data. -/
structure GTComparison where
  exhaustive_gt : Bool
  num_gt : Nat
  num_sorter : Nat
  count_well_detected : Nat
  count_overmerged : Nat
  count_redundant : Nat
  count_false_positive : Nat
  count_bad : Nat
  deriving DecidableEq, Repr, BEq

/-- The in-memory attributes set by `scan_folder`. -/
structure ScanState where
  levels : Levels
  datasets : List String
  cases : List PyKey
  comparisons : List (PyKey × Option GTComparison)
  sortings : List (PyKey × Option Sorting)
  deriving DecidableEq, Repr, BEq

/-- The sortings-scanning loop of `scan_folder` (lines 159-166): for each
case key, load the sorting from `sortings/<key-string>` when that folder
exists, else store `None`.  A non-str/tuple key raises `ValueError` from
`key_to_str`. -/
def scanSortings (st : StudyFS) :
    List PyKey → Except PyErr (List (PyKey × Option Sorting))
  | [] => .ok []
  | k :: ks =>
    match key_to_str k with
    | .error e => .error e
    | .ok s =>
      match scanSortings st ks with
      | .error e => .error e
      | .ok rest =>
        .ok ((k, if st.existingSortings.contains s
                 then some ("sortings/" ++ s) else none) :: rest)

/-- `GroundTruthStudy.scan_folder` (lines 136-166): raise `ValueError`
when the `datasets` subfolder does not exist; otherwise load `info.json`,
the datasets, `cases.pickle`, initialize `self.comparisons` to `None` for
every case key, and scan the sortings folders. -/
def scan_folder (st : StudyFS) : Except PyErr ScanState :=
  if !st.hasDatasets then
    .error (.valueError "This is folder is not a GroundTruthStudy")
  else
    match scanSortings st st.casesKeys with
    | .error e => .error e
    | .ok sortings =>
      .ok { levels := st.infoLevels,
            datasets := st.recordingNames,
            cases := st.casesKeys,
            comparisons := st.casesKeys.map (fun k => (k, none)),
            sortings := sortings }

/-- `GroundTruthStudy.__init__` (lines 63-71): set empty dicts and call
`scan_folder`, so constructing a study is scanning its folder. -/
def init (st : StudyFS) : Except PyErr ScanState :=
  scan_folder st

/-- A filesystem / state effect performed by `copy_sortings`. -/
inductive CopyOp where
  /-- `shutil.rmtree(sorting_folder)` (line 248). -/
  | rmtree (path : String)
  /-- `sorting.save(format="numpy_folder", folder=sorting_folder)` and the
  assignment `self.sortings[key] = sorting` (lines 252-253). -/
  | saveSorting (path : String)
  /-- `shutil.copyfile(... "spikeinterface_log.json", log_file)` (line 256). -/
  | copyLog (src dst : String)
  deriving DecidableEq, Repr, BEq

/-- One iteration of the loop of `GroundTruthStudy.copy_sortings`
(lines 238-256) for key `k`: read the sorter folder
(`raise_error=False`); when it yields a sorting, remove an existing
sortings folder if `force` (else `continue`), save the sorting into the
sortings folder and copy the log.  Returns the effects performed. -/
def copy_sortings_key (st : StudyFS) (force : Bool) (k : PyKey) :
    Except PyErr (List CopyOp) :=
  match key_to_str k with
  | .error e => .error e
  | .ok ks =>
  let sortingFolder := "sortings/" ++ ks
  let sorterFolder := "sorters/" ++ ks
  let logFile := "sortings/run_logs/" ++ ks ++ ".json"
  if st.readableSorters.contains ks then
    if st.existingSortings.contains ks then
      if force then
        .ok [.rmtree sortingFolder, .saveSorting sortingFolder,
             .copyLog (sorterFolder ++ "/spikeinterface_log.json") logFile]
      else
        .ok []
    else
      .ok [.saveSorting sortingFolder,
           .copyLog (sorterFolder ++ "/spikeinterface_log.json") logFile]
  else
    .ok []

/-- `GroundTruthStudy.run_comparisons` (lines 258-271) with the external
comparison class modelled by `mkComp` (from the ground-truth sorting of
the case's dataset and the case's sorting) and the case-to-ground-truth
lookup by `gtOf`: for each key, when `self.sortings[key]` is `None` store
`None` in `self.comparisons` and continue, else store the comparison. -/
def run_comparisons (gtOf : PyKey → String)
    (mkComp : String → Sorting → GTComparison)
    (sortings : List (PyKey × Option Sorting)) :
    List (PyKey × Option GTComparison) :=
  sortings.map (fun p => (p.1, p.2.map (fun s => mkComp (gtOf p.1) s)))

/-- The five columns always present in `get_count_units` (line 393). -/
def baseColumns : List String :=
  ["num_gt", "num_sorter", "num_well_detected", "num_redundant", "num_overmerged"]

/-- The cell assignments of the `get_count_units` row loop for one
comparison (lines 407-420): the first three columns always, the last
four only when `comp.exhaustive_gt`. -/
def countRow (c : GTComparison) : List (String × Nat) :=
  [("num_gt", c.num_gt), ("num_sorter", c.num_sorter),
   ("num_well_detected", c.count_well_detected)] ++
  (if c.exhaustive_gt then
    [("num_overmerged", c.count_overmerged),
     ("num_redundant", c.count_redundant),
     ("num_false_positive", c.count_false_positive),
     ("num_bad", c.count_bad)]
   else [])

/-- The row loop of `get_count_units` (lines 400-420): for each key,
`self.comparisons.get(key, None)` must be a computed comparison, else the
assert `"You need to do study.run_comparisons() first"` fires. -/
def countRows (comparisons : List (PyKey × Option GTComparison)) :
    List PyKey → Except PyErr (List (PyKey × List (String × Nat)))
  | [] => .ok []
  | k :: ks =>
    match dictGet comparisons k with
    | some (some c) =>
      match countRows comparisons ks with
      | .error e => .error e
      | .ok rest => .ok ((k, countRow c) :: rest)
    | _ => .error (.assertionError "You need to do study.run_comparisons() first")

/-- The dataframe built by `get_count_units`: index, columns, and the
cells assigned by the loop. -/
structure CountFrame where
  index : List PyKey
  columns : List String
  rows : List (PyKey × List (String × Nat))
  deriving DecidableEq, Repr, BEq

/-- `GroundTruthStudy.get_count_units` (lines 378-422): take `case_keys`
(first element drives the column set: `self.comparisons[case_keys[0]]`
must exist and be non-`None`, since its `exhaustive_gt` attribute is
read), extend the base columns with `num_false_positive` and `num_bad`
when that comparison has `exhaustive_gt`, and fill one row per key. -/
def get_count_units (comparisons : List (PyKey × Option GTComparison))
    (case_keys : List PyKey) : Except PyErr CountFrame :=
  match case_keys with
  | [] => .error .indexError
  | k0 :: _ =>
    match dictGet comparisons k0 with
    | none => .error (.keyError "comparisons")
    | some none => .error (.attributeError "NoneType has no attribute exhaustive_gt")
    | some (some c0) =>
      match countRows comparisons case_keys with
      | .error e => .error e
      | .ok rows =>
        .ok { index := case_keys,
              columns := baseColumns ++
                (if c0.exhaustive_gt then ["num_false_positive", "num_bad"] else []),
              rows := rows }

end GroundTruthStudy

namespace SortingSummary

/-- A `sortingview` view assembled by
`SortingSummaryWidget.plot_sortingview`.  The pre-built sub-views
(`AmplitudesWidget`, `UnitTemplatesWidget`, `CrossCorrelogramsWidget`,
`UnitLocationsWidget`, the unit table from `generate_unit_table_view`,
and `vv.SortingCuration2`) are opaque leaves; `vv.Splitter` carries its
direction and the optional `stretch` of each `vv.LayoutItem`. -/
inductive SVView where
  | spikeAmplitudes
  | averageWaveforms
  | crossCorrelograms
  | unitLocations
  | unitsTable
  | sortingCuration
  | splitter (direction : String) (item1 : SVView) (stretch1 : Option Rat)
             (item2 : SVView) (stretch2 : Option Rat)
  deriving DecidableEq, Repr, BEq

/-- One `vv.UnitSimilarityScore` (sorting_summary.py lines 153-155). -/
structure UnitSimilarityScore where
  unit_id1 : Nat
  unit_id2 : Nat
  similarity : Rat
  deriving DecidableEq, Repr, BEq

/-- The double loop of `plot_sortingview` that collects pairwise
similarity scores (lines 150-155): for every ordered pair of positions
`(i1, i2)` in `unit_ids`, one score built from `similarity[i1, i2]`. -/
def similarity_scores (unit_ids : List Nat) (similarity : Nat → Nat → Rat) :
    List UnitSimilarityScore :=
  unit_ids.enum.flatMap (fun p1 =>
    unit_ids.enum.map (fun p2 =>
      { unit_id1 := p1.2, unit_id2 := p2.2,
        similarity := similarity p1.1 p2.1 }))

/-- What `plot_sortingview` produces: the similarity scores handed to
`generate_unit_table_view`, and the assembled layout tree `self.view`. -/
structure PlotResult where
  similarityScores : List UnitSimilarityScore
  view : SVView
  deriving DecidableEq, Repr, BEq

/-- `SortingSummaryWidget.plot_sortingview` (lines 86-192), restricted to
the computation the method performs itself: build the sub-views (opaque),
collect the pairwise similarity scores, build the unit table, then
assemble the nested `vv.Splitter` layout of lines 162-187. -/
def plot_sortingview (unit_ids : List Nat) (similarity : Nat → Nat → Rat)
    (curation : Bool) : PlotResult :=
  let v_spike_amplitudes := SVView.spikeAmplitudes
  let v_average_waveforms := SVView.averageWaveforms
  let v_cross_correlograms := SVView.crossCorrelograms
  let v_unit_locations := SVView.unitLocations
  let scores := similarity_scores unit_ids similarity
  let v_units_table := SVView.unitsTable
  let v1 :=
    if curation then
      SVView.splitter "vertical" v_units_table none SVView.sortingCuration none
    else
      v_units_table
  let v2 :=
    SVView.splitter "horizontal" v_unit_locations (some (2 / 10))
      (SVView.splitter "horizontal" v_average_waveforms none
        (SVView.splitter "vertical" v_spike_amplitudes none
          v_cross_correlograms none) none) none
  { similarityScores := scores,
    view := SVView.splitter "horizontal" v1 none v2 none }

end SortingSummary

open GroundTruthStudy SortingSummary

/-! ## Theorems about the claims -/

/-- Spec-side predicate (C4): all case keys are strings, or all are
tuples of equal length. -/
def homogeneousKeys : List PyKey → Bool
  | [] => true
  | k0 :: ks =>
    (k0 :: ks).all isStr ||
    ((k0 :: ks).all isTup && (k0 :: ks).all (fun k => tupLen k = tupLen k0))

/-- The dataset-dumping loop never creates a directory. -/
theorem dumpDatasets_no_mkdir (p : String) (ks : List String) :
    FsOp.mkdir p ∉ (dumpDatasets ks).1 := by
  induction ks with
  | nil => simp [dumpDatasets]
  | cons k ks ih =>
    simp only [dumpDatasets]
    split
    · simp
    · simp_all

/-- C2: Constructing a `GroundTruthStudy` on a folder whose `datasets`
subfolder does not exist raises a `ValueError` from `scan_folder`
(`__init__` calls `scan_folder`, whose first statement is the existence
check); scanning never proceeds on such a folder. -/
theorem C2_missing_datasets_folder (st : StudyFS) (h : st.hasDatasets = false) :
    GroundTruthStudy.init st =
      .error (.valueError "This is folder is not a GroundTruthStudy") := by
  simp [GroundTruthStudy.init, scan_folder, h]

/-- Concrete study folder without a `datasets` subfolder. -/
def fsC2 : StudyFS :=
  { hasDatasets := false, infoLevels := .single "level0", recordingNames := [],
    caseParams := [], datasets := [], existingSortings := [], readableSorters := [] }

/-- Witness for C2 at a concrete folder state. -/
theorem C2_missing_datasets_folder_witness :
    fsC2.hasDatasets = false ∧
    GroundTruthStudy.init fsC2 =
      .error (.valueError "This is folder is not a GroundTruthStudy") :=
  ⟨rfl, C2_missing_datasets_folder fsC2 rfl⟩

/-- C10: `create` called with an empty `cases` dict raises `IndexError`
(from `list(cases.keys())[0]`) before any folder or file is created: the
effect list is empty, whatever `levels` and `datasets` are. -/
theorem C10_create_empty_cases (levels : Option Levels) (dsKeys : List String) :
    create [] levels dsKeys = ([], some .indexError) := rfl

/-- C4: `key_to_str` returns a string key unchanged, joins a tuple key
with `" ## "`, and raises `ValueError` otherwise; `create` raises
`ValueError` (performing no filesystem effect) when the first case key is
neither `str` nor `tuple`, and succeeds only on homogeneous key sets
(all strings, or all tuples of equal length). -/
theorem C4_case_key_types :
    (∀ s, key_to_str (.str s) = .ok s) ∧
    (∀ t, key_to_str (.tup t) = .ok (String.intercalate keySeparator t)) ∧
    (key_to_str .other = .error (.valueError "Keys for cases must str or tuple")) ∧
    (∀ ks levels dsKeys, create (.other :: ks) levels dsKeys =
        ([], some (.valueError "Keys for cases must str or tuple"))) ∧
    (∀ cases levels lv, checkCaseKeysLevels cases levels = .ok lv →
        homogeneousKeys cases = true) := by
  refine ⟨fun s => rfl, fun t => rfl, rfl, fun ks levels dsKeys => rfl, ?_⟩
  intro cases levels lv h
  match cases with
  | [] => simp [checkCaseKeysLevels] at h
  | .str s :: ks =>
    unfold checkCaseKeysLevels at h
    by_cases hall : ((PyKey.str s :: ks).all isStr) = true
    · simp [homogeneousKeys, hall]
    · simp [hall] at h
  | .tup t0 :: ks =>
    unfold checkCaseKeysLevels at h
    by_cases h1 : ((PyKey.tup t0 :: ks).all isTup) = true
    · by_cases h2 : ((PyKey.tup t0 :: ks).all (fun k => tupLen k = t0.length)) = true
      · simp [homogeneousKeys, h1, tupLen] at h2 ⊢
        exact Or.inr h2
      · simp [h1, h2] at h
    · simp [h1] at h
  | .other :: ks => simp [checkCaseKeysLevels] at h

/-- Witness for C4 at concrete homogeneous tuple keys. -/
theorem C4_case_key_types_witness :
    checkCaseKeysLevels [PyKey.tup ["a", "b"], PyKey.tup ["c", "d"]] none =
      .ok (.multi ["level0", "level1"]) ∧
    homogeneousKeys [PyKey.tup ["a", "b"], PyKey.tup ["c", "d"]] = true :=
  ⟨by decide,
   C4_case_key_types.2.2.2.2 [PyKey.tup ["a", "b"], PyKey.tup ["c", "d"]] none
     (.multi ["level0", "level1"]) (by decide)⟩

/-- The loop of the C1 spec description, iterated like
`run_sorters_loop`. -/
def run_sorters_keep_spec_loop (st : StudyFS) (verbose : Bool) :
    List PyKey → Except PyErr (List RunStep)
  | [] => .ok []
  | k :: ks =>
    match run_sorters_keep_spec_key st verbose k with
    | .error e => .error e
    | .ok s =>
      match run_sorters_keep_spec_loop st verbose ks with
      | .error e => .error e
      | .ok rest => .ok (s :: rest)

/-- Definition following the words of claim C1: process every case key by
the skip-or-build rule of `run_sorters_keep_spec_key`, then hand the
whole job list to `run_sorter_jobs` in a single call. -/
def run_sorters_keep_spec (st : StudyFS) (case_keys : Option (List PyKey))
    (verbose : Bool) : Except PyErr RunSortersResult :=
  match run_sorters_keep_spec_loop st verbose (case_keys.getD st.casesKeys) with
  | .error e => .error e
  | .ok steps => .ok { steps := steps, jobCalls := [stepsJobs steps] }

/-- With `keep=True` one loop iteration of `run_sorters` behaves as the
spec's skip-or-build rule: because `sorter_folder_exists` is read from
the sortings folder, the recovery branch never fires. -/
theorem run_sorters_key_keep_eq (st : StudyFS) (v : Bool) (k : PyKey) :
    run_sorters_key st true v k = run_sorters_keep_spec_key st v k := by
  unfold run_sorters_key run_sorters_keep_spec_key
  cases hk : key_to_str k with
  | error e => rfl
  | ok ks =>
    cases hc : st.existingSortings.contains ks <;>
      simp only [hc, Bool.true_and, Bool.false_and, Bool.false_eq_true,
        Bool.true_eq_false, if_false, if_true, Bool.and_false, Bool.and_true]

/-- The outcome of one spec-rule iteration is an error, a skip, or a
job — never the recovery branch. -/
theorem run_sorters_keep_spec_key_cases (st : StudyFS) (v : Bool) (k : PyKey) :
    (∃ e, run_sorters_keep_spec_key st v k = .error e) ∨
    (run_sorters_keep_spec_key st v k = .ok (.skipExisting k)) ∨
    (∃ j, run_sorters_keep_spec_key st v k = .ok (.job j)) := by
  cases hk : key_to_str k with
  | error e => exact Or.inl ⟨e, by simp [run_sorters_keep_spec_key, hk]⟩
  | ok ks =>
    by_cases hc : st.existingSortings.contains ks = true
    · have hm : ks ∈ st.existingSortings := by simpa using hc
      exact Or.inr (Or.inl (by simp [run_sorters_keep_spec_key, hk, hm]))
    · have hm : ks ∉ st.existingSortings := by simpa using hc
      rcases h1 : dictGet st.caseParams k with - | cp
      · exact Or.inl ⟨.keyError "cases",
          by simp [run_sorters_keep_spec_key, buildJob, hk, hm, h1]⟩
      · rcases h2 : sdictGet st.datasets cp.dataset with - | recId
        · exact Or.inl ⟨.keyError cp.dataset,
            by simp [run_sorters_keep_spec_key, buildJob, hk, hm, h1, h2]⟩
        · rcases h3 : popParam "sorter_name" cp.run_sorter_params with e | ⟨sn, ps⟩
          · exact Or.inl ⟨e,
              by simp [run_sorters_keep_spec_key, buildJob, hk, hm, h1, h2, h3]⟩
          · exact Or.inr (Or.inr ⟨Job.mk sn recId ("sorters/" ++ ks) ps v,
              by simp [run_sorters_keep_spec_key, buildJob, hk, hm, h1, h2, h3]⟩)

/-- The loops agree for `keep=True`. -/
theorem run_sorters_loop_keep_eq (st : StudyFS) (v : Bool) (l : List PyKey) :
    run_sorters_loop st true v l = run_sorters_keep_spec_loop st v l := by
  induction l with
  | nil => rfl
  | cons k ks ih =>
    unfold run_sorters_loop run_sorters_keep_spec_loop
    rw [run_sorters_key_keep_eq, ih]

/-- C1: with `keep=True`, `run_sorters` skips exactly the cases whose
`sortings/<key-string>` folder exists, builds the described job for every
other case, and hands the whole job list to `run_sorter_jobs` in a single
call. -/
theorem C1_run_sorters_keep (st : StudyFS) (case_keys : Option (List PyKey))
    (verbose : Bool) :
    run_sorters st case_keys true verbose =
      run_sorters_keep_spec st case_keys verbose ∧
    (∀ r, run_sorters st case_keys true verbose = .ok r →
        r.jobCalls = [stepsJobs r.steps]) := by
  constructor
  · unfold run_sorters run_sorters_keep_spec
    rw [run_sorters_loop_keep_eq]
  · intro r hr
    unfold run_sorters at hr
    cases hl : run_sorters_loop st true verbose (case_keys.getD st.casesKeys) with
    | error e => rw [hl] at hr; exact Except.noConfusion hr
    | ok steps =>
      rw [hl] at hr
      injection hr with hr
      subst hr
      rfl

/-- Concrete study for the C1 witness: case `a` computed, case `b` not. -/
def fsC1 : StudyFS :=
  { hasDatasets := true, infoLevels := .single "level0", recordingNames := ["ds"],
    caseParams :=
      [(PyKey.str "a", { dataset := "ds", run_sorter_params := [("sorter_name", "tdc")] }),
       (PyKey.str "b", { dataset := "ds",
                         run_sorter_params := [("sorter_name", "sc"), ("thr", "5")] })],
    datasets := [("ds", "rec0")], existingSortings := ["a"], readableSorters := [] }

/-- The result of `run_sorters` on `fsC1` with `keep=True`. -/
def rC1 : RunSortersResult :=
  { steps := [.skipExisting (PyKey.str "a"),
              .job { sorter_name := "sc", recording := "rec0",
                     output_folder := "sorters/b", params := [("thr", "5")],
                     verbose := false }],
    jobCalls := [[{ sorter_name := "sc", recording := "rec0",
                    output_folder := "sorters/b", params := [("thr", "5")],
                    verbose := false }]] }

/-- Witness for C1 at a concrete study. -/
theorem C1_run_sorters_keep_witness :
    run_sorters fsC1 none true false = .ok rC1 ∧
    rC1.jobCalls = [stepsJobs rC1.steps] :=
  ⟨by decide, (C1_run_sorters_keep fsC1 none false).2 rC1 (by decide)⟩

/-- C8: `sorter_folder_exists` is computed from the sortings folder
(line 199), so under `keep=True` the recovery branch
(`read_sorter_folder` / `copy_sortings`) is unreachable — no iteration
ever yields `copyAndSkip` — and the loop's outcome does not depend on the
readable sorter outputs at all. -/
theorem C8_recovery_branch_unreachable :
    (∀ (st : StudyFS) (v : Bool) (k : PyKey) (s : RunStep),
        run_sorters_key st true v k = .ok s → ∀ k2, s ≠ .copyAndSkip k2) ∧
    (∀ (st : StudyFS) (rs : List String) (v : Bool) (k : PyKey),
        run_sorters_key { st with readableSorters := rs } true v k =
          run_sorters_key st true v k) := by
  constructor
  · intro st v k s h k2
    rw [run_sorters_key_keep_eq] at h
    rcases run_sorters_keep_spec_key_cases st v k with ⟨e, he⟩ | hskip | ⟨j, hj⟩
    · rw [he] at h
      exact Except.noConfusion h
    · rw [hskip] at h
      injection h with h
      subst h
      simp
    · rw [hj] at h
      injection h with h
      subst h
      simp
  · intro st rs v k
    rw [run_sorters_key_keep_eq, run_sorters_key_keep_eq]
    rfl

/-- Concrete study for the C8 witness: the sorter output of case `a` is
readable but the sortings folder is absent — the loop still builds a job
rather than recovering the existing output. -/
def fsC8 : StudyFS :=
  { hasDatasets := true, infoLevels := .single "level0", recordingNames := ["ds"],
    caseParams :=
      [(PyKey.str "a", { dataset := "ds", run_sorter_params := [("sorter_name", "tdc")] })],
    datasets := [("ds", "rec0")], existingSortings := [], readableSorters := ["a"] }

/-- The job built for case `a` of `fsC8`. -/
def jC8 : Job :=
  { sorter_name := "tdc", recording := "rec0", output_folder := "sorters/a",
    params := [], verbose := false }

/-- Witness for C8 at a concrete study with a readable sorter output. -/
theorem C8_recovery_branch_unreachable_witness :
    run_sorters_key fsC8 true false (PyKey.str "a") = .ok (.job jC8) ∧
    (∀ k2, RunStep.job jC8 ≠ .copyAndSkip k2) :=
  ⟨by decide,
   C8_recovery_branch_unreachable.1 fsC8 false (PyKey.str "a") (.job jC8)
     (by decide)⟩

/-- Characterization of the sortings-scanning loop on success: the
produced keys are the scanned keys in order, and each entry holds a
sorting exactly when the corresponding `sortings/<key-string>` folder
exists. -/
theorem scanSortings_ok_spec (st : StudyFS) :
    ∀ (l : List PyKey) (r : List (PyKey × Option Sorting)),
      scanSortings st l = .ok r →
      r.map Prod.fst = l ∧
      ∀ p ∈ r, ∃ ks, key_to_str p.1 = .ok ks ∧
        p.2.isSome = st.existingSortings.contains ks := by
  intro l
  induction l with
  | nil =>
    intro r h
    injection h with h
    subst h
    simp
  | cons k ks ih =>
    intro r h
    unfold scanSortings at h
    cases hk : key_to_str k with
    | error e => rw [hk] at h; exact Except.noConfusion h
    | ok s =>
      rw [hk] at h
      cases hrest : scanSortings st ks with
      | error e => rw [hrest] at h; exact Except.noConfusion h
      | ok rest =>
        rw [hrest] at h
        injection h with h
        subst h
        obtain ⟨h1, h2⟩ := ih rest hrest
        constructor
        · simp [h1]
        · intro p hp
          rcases List.mem_cons.mp hp with hp | hp
          · subst hp
            refine ⟨s, hk, ?_⟩
            cases hc : st.existingSortings.contains s <;> simp [hc]
          · exact h2 p hp

/-- What a successful `scan_folder` returns, in terms of the folder
state. -/
theorem scan_folder_ok_spec (st : StudyFS) (sc : ScanState)
    (h : scan_folder st = .ok sc) :
    scanSortings st st.casesKeys = .ok sc.sortings ∧
    sc.comparisons = st.casesKeys.map (fun k => (k, none)) ∧
    sc.cases = st.casesKeys ∧
    sc.levels = st.infoLevels ∧
    sc.datasets = st.recordingNames := by
  unfold scan_folder at h
  cases hd : st.hasDatasets with
  | false => rw [hd] at h; exact Except.noConfusion h
  | true =>
    rw [hd] at h
    simp only [Bool.not_true, Bool.false_eq_true, if_false] at h
    cases hs : scanSortings st st.casesKeys with
    | error e => rw [hs] at h; exact Except.noConfusion h
    | ok sortings =>
      rw [hs] at h
      injection h with h
      subst h
      exact ⟨rfl, rfl, rfl, rfl, rfl⟩

/-- C9: after `scan_folder` (hence after `__init__` and after `create`
return, both of which end in `scan_folder`), `self.sortings` and
`self.comparisons` have exactly the case keys as key set, every
comparison is `None`, and `self.sortings[key]` is non-`None` exactly when
`sortings/<key-string>` existed at scan time. -/
theorem C9_scan_state_invariants (st : StudyFS) (sc : ScanState)
    (h : scan_folder st = .ok sc) :
    sc.sortings.map Prod.fst = st.casesKeys ∧
    sc.comparisons.map Prod.fst = st.casesKeys ∧
    (∀ p ∈ sc.comparisons, p.2 = none) ∧
    (∀ p ∈ sc.sortings, ∃ ks, key_to_str p.1 = .ok ks ∧
        p.2.isSome = st.existingSortings.contains ks) := by
  obtain ⟨hs, hc, -, -, -⟩ := scan_folder_ok_spec st sc h
  obtain ⟨h1, h2⟩ := scanSortings_ok_spec st st.casesKeys sc.sortings hs
  refine ⟨h1, ?_, ?_, h2⟩
  · simp [hc, List.map_map, Function.comp_def]
  · intro p hp
    rw [hc] at hp
    obtain ⟨k, -, hk⟩ := List.mem_map.mp hp
    rw [← hk]

/-- Concrete study folder for the C9 witness: two cases, one computed. -/
def fsC9 : StudyFS :=
  { hasDatasets := true, infoLevels := .single "level0", recordingNames := ["ds"],
    caseParams := [(PyKey.str "a", { dataset := "ds", run_sorter_params := [] }),
                   (PyKey.str "b", { dataset := "ds", run_sorter_params := [] })],
    datasets := [("ds", "rec0")], existingSortings := ["a"], readableSorters := [] }

/-- The scan state of `fsC9`. -/
def scC9 : ScanState :=
  { levels := .single "level0", datasets := ["ds"],
    cases := [PyKey.str "a", PyKey.str "b"],
    comparisons := [(PyKey.str "a", none), (PyKey.str "b", none)],
    sortings := [(PyKey.str "a", some "sortings/a"), (PyKey.str "b", none)] }

/-- Witness for C9 at a concrete scanned folder. -/
theorem C9_scan_state_invariants_witness :
    scan_folder fsC9 = .ok scC9 ∧
    scC9.sortings.map Prod.fst = fsC9.casesKeys ∧
    scC9.comparisons.map Prod.fst = fsC9.casesKeys ∧
    (∀ p ∈ scC9.comparisons, p.2 = none) :=
  ⟨by decide, (C9_scan_state_invariants fsC9 scC9 (by decide)).1,
   (C9_scan_state_invariants fsC9 scC9 (by decide)).2.1,
   (C9_scan_state_invariants fsC9 scC9 (by decide)).2.2.1⟩

/-- C3: a case key whose `sortings/<key-string>` folder does not exist
gets `None` in `self.sortings` from `scan_folder` without raising;
`run_comparisons` stores `None` for such a key and continues; and
`copy_sortings` performs no effect for a key whose sorter folder yields
no readable sorting (`read_sorter_folder` returns `None`). -/
theorem C3_missing_output_not_computed :
    (∀ (st : StudyFS) (sc : ScanState), scan_folder st = .ok sc →
        ∀ p ∈ sc.sortings, ∀ ks, key_to_str p.1 = .ok ks →
          st.existingSortings.contains ks = false → p.2 = none) ∧
    (∀ (gtOf : PyKey → String) (mkComp : String → Sorting → GTComparison)
        (sortings : List (PyKey × Option Sorting)) (p : PyKey × Option Sorting),
        p ∈ sortings → p.2 = none →
        (p.1, (none : Option GTComparison)) ∈ run_comparisons gtOf mkComp sortings) ∧
    (∀ (st : StudyFS) (force : Bool) (k : PyKey) (ks : String),
        key_to_str k = .ok ks → st.readableSorters.contains ks = false →
        copy_sortings_key st force k = .ok []) := by
  refine ⟨?_, ?_, ?_⟩
  · intro st sc h p hp ks hks hmiss
    obtain ⟨hs, -, -, -, -⟩ := scan_folder_ok_spec st sc h
    obtain ⟨-, h2⟩ := scanSortings_ok_spec st st.casesKeys sc.sortings hs
    obtain ⟨ks2, hks2, hsome⟩ := h2 p hp
    rw [hks] at hks2
    injection hks2 with hks2
    subst hks2
    rw [hmiss] at hsome
    exact Option.not_isSome_iff_eq_none.mp (by simp [hsome])
  · intro gtOf mkComp sortings p hp hnone
    have hm := List.mem_map_of_mem
      (fun q : PyKey × Option Sorting => (q.1, q.2.map (fun s => mkComp (gtOf q.1) s))) hp
    simpa [run_comparisons, hnone] using hm
  · intro st force k ks hk hr
    unfold copy_sortings_key
    rw [hk]
    simp only [hr, Bool.false_eq_true, if_false]

/-- Witness for C3 at concrete states: one case, no sortings folder, no
readable sorter output. -/
theorem C3_missing_output_not_computed_witness :
    (PyKey.str "b", (none : Option Sorting)).2 = none ∧
    (PyKey.str "a", (none : Option GTComparison)) ∈
      run_comparisons (fun _ => "gt") (fun _ _ => ⟨false, 0, 0, 0, 0, 0, 0, 0⟩)
        [(PyKey.str "a", (none : Option Sorting))] ∧
    copy_sortings_key fsC9 false (PyKey.str "b") = .ok [] :=
  ⟨C3_missing_output_not_computed.1 fsC9 scC9 (by decide)
     (PyKey.str "b", none) (by simp [scC9]) "b" rfl (by decide),
   C3_missing_output_not_computed.2.1 (fun _ => "gt")
     (fun _ _ => ⟨false, 0, 0, 0, 0, 0, 0, 0⟩)
     [(PyKey.str "a", none)] (PyKey.str "a", none) (by simp) rfl,
   C3_missing_output_not_computed.2.2 fsC9 false (PyKey.str "b") "b" rfl (by decide)⟩

/-- The row loop of `get_count_units` succeeds when every requested
comparison has been computed. -/
theorem countRows_ok (comps : List (PyKey × Option GTComparison)) :
    ∀ l : List PyKey, (∀ k ∈ l, ∃ c, dictGet comps k = some (some c)) →
      ∃ rows, countRows comps l = .ok rows := by
  intro l
  induction l with
  | nil => exact fun _ => ⟨[], rfl⟩
  | cons k ks ih =>
    intro hall
    obtain ⟨c, hc⟩ := hall k (List.mem_cons_self k ks)
    obtain ⟨rows, hrows⟩ := ih (fun k2 hk2 => hall k2 (List.mem_cons_of_mem _ hk2))
    refine ⟨(k, countRow c) :: rows, ?_⟩
    unfold countRows
    rw [hc, hrows]

/-- C6: for a non-empty list of case keys whose comparisons are all
computed, `get_count_units` returns a dataframe indexed by the keys whose
columns are exactly the five base columns, extended with
`num_false_positive` and `num_bad` exactly when the first listed case's
comparison has `exhaustive_gt`. -/
theorem C6_get_count_units_columns (comps : List (PyKey × Option GTComparison))
    (k0 : PyKey) (ks : List PyKey) (c0 : GTComparison)
    (h0 : dictGet comps k0 = some (some c0))
    (hall : ∀ k ∈ k0 :: ks, ∃ c, dictGet comps k = some (some c)) :
    ∃ fr, get_count_units comps (k0 :: ks) = .ok fr ∧
      fr.index = k0 :: ks ∧
      fr.columns = baseColumns ++
        (if c0.exhaustive_gt then ["num_false_positive", "num_bad"] else []) := by
  obtain ⟨rows, hrows⟩ := countRows_ok comps (k0 :: ks) hall
  refine ⟨{ index := k0 :: ks,
            columns := baseColumns ++
              (if c0.exhaustive_gt then ["num_false_positive", "num_bad"] else []),
            rows := rows }, ?_, rfl, rfl⟩
  simp [get_count_units, h0, hrows]

/-- Computed comparisons for the C6 witness (exhaustive ground truth). -/
def compsC6 : List (PyKey × Option GTComparison) :=
  [(PyKey.str "a", some ⟨true, 10, 12, 8, 1, 1, 2, 3⟩)]

/-- The dataframe `get_count_units` builds on `compsC6`. -/
def frC6 : CountFrame :=
  { index := [PyKey.str "a"],
    columns := baseColumns ++ ["num_false_positive", "num_bad"],
    rows := [(PyKey.str "a", countRow ⟨true, 10, 12, 8, 1, 1, 2, 3⟩)] }

/-- Witness for C6 at a concrete exhaustive-ground-truth comparison. -/
theorem C6_get_count_units_columns_witness :
    get_count_units compsC6 [PyKey.str "a"] = .ok frC6 ∧
    frC6.columns = baseColumns ++ ["num_false_positive", "num_bad"] := by
  obtain ⟨fr, h1, h2, h3⟩ := C6_get_count_units_columns compsC6 (PyKey.str "a") []
    ⟨true, 10, 12, 8, 1, 1, 2, 3⟩ (by decide)
    (by
      intro k hk
      rw [List.mem_singleton] at hk
      subst hk
      exact ⟨⟨true, 10, 12, 8, 1, 1, 2, 3⟩, by decide⟩)
  have hok : Except.ok (ε := PyErr) fr = .ok frC6 := by
    rw [← h1]
    decide
  have hfr : fr = frC6 := by injection hok
  exact ⟨hfr ▸ h1, hfr ▸ h3⟩

/-- C7: `plot_sortingview` assembles the fixed nested splitter layout —
top-level horizontal split with the unit table (stacked above a curation
panel exactly when `curation` is true) on the left and the
unit-locations / average-waveforms / spike-amplitudes /
cross-correlograms tree on the right — and its only own computation is
collecting the pairwise similarity scores. -/
theorem C7_sorting_summary_layout (curation : Bool) (unit_ids : List Nat)
    (sim : Nat → Nat → Rat) :
    (plot_sortingview unit_ids sim curation).view =
      SVView.splitter "horizontal"
        (if curation then
          SVView.splitter "vertical" .unitsTable none .sortingCuration none
         else .unitsTable) none
        (SVView.splitter "horizontal" .unitLocations (some (2 / 10))
          (SVView.splitter "horizontal" .averageWaveforms none
            (SVView.splitter "vertical" .spikeAmplitudes none
              .crossCorrelograms none) none) none) none ∧
    (plot_sortingview unit_ids sim curation).similarityScores =
      similarity_scores unit_ids sim ∧
    (similarity_scores unit_ids sim).length =
      unit_ids.length * unit_ids.length := by
  refine ⟨by cases curation <;> rfl, rfl, ?_⟩
  simp [similarity_scores, Function.comp_def, List.map_const', List.sum_replicate,
    smul_eq_mul, List.enum_length]

/-- C5 counterexample: a successful `create` performs no
`mkdir("waveforms")` — the claim's "plus the waveforms subfolder" is not
part of the layout `create` establishes. -/
theorem C5_counterexample :
    (create [PyKey.str "case1"] none ["ds1"]).2 = none ∧
    (create [PyKey.str "case1"] none ["ds1"]).1.contains (.mkdir "waveforms") = false :=
  ⟨by decide, by decide⟩

/-- C5 (amended): when the key check succeeds and the dataset keys are
clean, `create` performs exactly the eight `mkdir`s
(study folder, `datasets`, `datasets/recordings`, `datasets/gt_sortings`,
`sorters`, `sortings`, `sortings/run_logs`, `metrics`), the dataset
dumps, and the writes of `info.json` and `cases.pickle`; it never creates
the `waveforms` subfolder, which is made (with `exist_ok=True`) by
`extract_waveforms_gt`. -/
theorem C5_create_layout (cases : List PyKey) (levels : Option Levels)
    (dsKeys : List String) (lv : Levels)
    (hok : checkCaseKeysLevels cases levels = .ok lv)
    (hds : (dumpDatasets dsKeys).2 = none) :
    create cases levels dsKeys =
      (createDirs ++ (dumpDatasets dsKeys).1 ++
        [.writeText "info.json", .writeBytes "cases.pickle"], none) ∧
    FsOp.mkdir "waveforms" ∉ (create cases levels dsKeys).1 ∧
    (extract_waveforms_gt cases).1.head? = some (.mkdirExistOk "waveforms") := by
  have hcreate : create cases levels dsKeys =
      (createDirs ++ (dumpDatasets dsKeys).1 ++
        [.writeText "info.json", .writeBytes "cases.pickle"], none) := by
    unfold create
    rw [hok, hds]
  refine ⟨hcreate, ?_, rfl⟩
  rw [hcreate]
  simp only [List.mem_append, List.not_mem_nil]
  push_neg
  exact ⟨⟨by simp [createDirs], dumpDatasets_no_mkdir "waveforms" dsKeys⟩, by simp⟩

/-- Witness for C5's amended theorem at a concrete study creation. -/
theorem C5_create_layout_witness :
    checkCaseKeysLevels [PyKey.str "case1"] none = .ok (.single "level0") ∧
    (dumpDatasets ["ds1"]).2 = none ∧
    create [PyKey.str "case1"] none ["ds1"] =
      (createDirs ++ (dumpDatasets ["ds1"]).1 ++
        [.writeText "info.json", .writeBytes "cases.pickle"], none) :=
  ⟨by decide, by decide,
   (C5_create_layout [PyKey.str "case1"] none ["ds1"] (.single "level0")
     (by decide) (by decide)).1⟩
